import Mathlib

/-!
Shallow embedding of the broker-side module host
(`src/broker/module.c` of the flux-core repository) and proofs about it.

Scope of the embedding:
* message frames (type, topic, route stack, credential, payload),
* the broker module record (the fields the host API reads and writes),
* the host API operations the claims are about: `module_sendmsg`,
  `module_recvmsg`, `module_set_status`, `module_destroy`,
  `module_push_rmmod` / `module_pop_rmmod`, `module_name_from_path`,
  the name selection of `module_create`, and the getters.

Primitives used by `module.c` but defined elsewhere in the repository
(`flux_msg_*` message accessors, czmq `zlist`, libc `basename`) are
modelled by small definitions whose doc comments say where their
semantics come from.
-/

namespace FluxModule

/-! ### Constants of the broker protocol and of errno

Message types, module states, roles, the unknown userid, and the errno
values are numeric codes fixed by the broker protocol / Linux; only
their distinctness (and bit structure, for roles) matters here. -/

def FLUX_MSGTYPE_REQUEST : Nat := 1
def FLUX_MSGTYPE_RESPONSE : Nat := 2
def FLUX_MSGTYPE_EVENT : Nat := 4
def FLUX_MSGTYPE_CONTROL : Nat := 8

def FLUX_MODSTATE_INIT : Nat := 0
def FLUX_MODSTATE_RUNNING : Nat := 1
def FLUX_MODSTATE_FINALIZING : Nat := 2
def FLUX_MODSTATE_EXITED : Nat := 3

def FLUX_ROLE_NONE : Nat := 0
def FLUX_ROLE_OWNER : Nat := 1
def FLUX_ROLE_USER : Nat := 2
def FLUX_ROLE_LOCAL : Nat := 4

def FLUX_USERID_UNKNOWN : Nat := 4294967295

def EINVAL : Nat := 22
def ENOMEM : Nat := 12
def ENOSYS : Nat := 38

/-! ### Message frames -/

/-- Credential carried on a message: `(userid, rolemask)`. -/
structure MsgCred where
  userid : Nat
  rolemask : Nat
deriving DecidableEq, Repr

/-- A message frame as described by the spec (section 4.1): type, topic,
route stack (ordered sequence of identity strings; the *last* element is
the top of the stack), credential, opaque payload bytes. -/
structure FluxMsg where
  typ : Nat
  topic : String
  routes : List String
  cred : MsgCred
  payload : List Nat
deriving DecidableEq, Repr

/-- Modelled from the spec: `flux_msg_route_push` from the repository's
message library (not under `src/`): pushes an identity string as the new
top (last) entry of the route stack. -/
def flux_msg_route_push (msg : FluxMsg) (id : String) : FluxMsg :=
  { msg with routes := msg.routes ++ [id] }

/-- Modelled from the spec: `flux_msg_route_delete_last` from the
repository's message library (not under `src/`): pops the last (top)
route entry; on an empty route stack there is nothing to delete. -/
def flux_msg_route_delete_last (msg : FluxMsg) : FluxMsg :=
  { msg with routes := msg.routes.dropLast }

/-- Modelled from the spec: `flux_msg_copy` from the repository's message
library (not under `src/`): duplicates a message; when `payload` is
false the copy carries no payload. -/
def flux_msg_copy (msg : FluxMsg) (payload : Bool) : FluxMsg :=
  if payload then msg else { msg with payload := [] }

/-! ### The module record

Only the fields that the operations under proof read or write are
embedded; handles (dso, socket, watcher, thread) are represented by the
booleans/data the control flow of `module.c` branches on. -/

structure ModuleRecord where
  uuid_str : String
  parent_uuid_str : String
  name : Option String
  path : Option String
  cred : MsgCred
  muted : Bool
  status : Nat
  errnum : Nat
  rmmod : List FluxMsg    -- czmq zlist; the head of this list is the list start
  insmod : Option FluxMsg
  thread_started : Bool   -- whether p->t holds a started thread
deriving DecidableEq, Repr

/-! ### module_sendmsg (module.c:427-476) -/

/-- Outcome of `module_sendmsg`: the frame transmitted on the channel
(return code 0), a silent success with nothing transmitted (the
`if (!msg) return 0` path), or failure with an errno (return code -1). -/
inductive SendResult where
  | sent : FluxMsg → SendResult
  | nullNoop : SendResult
  | failed : Nat → SendResult
deriving DecidableEq, Repr

/-- `module_sendmsg` (module.c:427-476).  A NULL message returns 0
without transmitting.  A muted record only lets through a RESPONSE whose
topic is "broker.module-status"; everything else fails with ENOSYS.
A REQUEST is duplicated and `parent_uuid_str` is pushed on the route
stack (simulated DEALER); a RESPONSE is duplicated and the last route
entry deleted (simulated ROUTER); other types are transmitted verbatim.
The argument message is const in the C source and never modified. -/
def module_sendmsg (p : ModuleRecord) (msg : Option FluxMsg) : SendResult :=
  match msg with
  | none => SendResult.nullNoop
  | some m =>
      if p.muted
         && !(m.typ == FLUX_MSGTYPE_RESPONSE && m.topic == "broker.module-status")
      then SendResult.failed ENOSYS
      else if m.typ == FLUX_MSGTYPE_REQUEST then
        SendResult.sent (flux_msg_route_push (flux_msg_copy m true) p.parent_uuid_str)
      else if m.typ == FLUX_MSGTYPE_RESPONSE then
        SendResult.sent (flux_msg_route_delete_last (flux_msg_copy m true))
      else
        SendResult.sent m

/-! ### module_recvmsg (module.c:383-425) -/

/-- The assertion executed by `module_recvmsg` (module.c:412): the
channel credential's rolemask has the OWNER bit. -/
def module_recvmsg_assertion (p : ModuleRecord) : Prop :=
  p.cred.rolemask &&& FLUX_ROLE_OWNER ≠ 0

/-- The `switch (type)` of `module_recvmsg` (module.c:393-405):
RESPONSE deletes the last route entry; REQUEST and EVENT push the
record's `uuid_str`; other types pass through. -/
def recvRouteRewrite (p : ModuleRecord) (msg : FluxMsg) : FluxMsg :=
  if msg.typ == FLUX_MSGTYPE_RESPONSE then
    flux_msg_route_delete_last msg
  else if msg.typ == FLUX_MSGTYPE_REQUEST || msg.typ == FLUX_MSGTYPE_EVENT then
    flux_msg_route_push msg p.uuid_str
  else
    msg

/-- The credential normalization of `module_recvmsg` (module.c:413-419):
an unknown userid is replaced by the channel credential's userid, an
empty (NONE) rolemask by the channel credential's rolemask; anything
else is preserved. -/
def credNormalize (pcred mcred : MsgCred) : MsgCred :=
  let cred1 :=
    if mcred.userid == FLUX_USERID_UNKNOWN then
      { mcred with userid := pcred.userid }
    else mcred
  if cred1.rolemask == FLUX_ROLE_NONE then
    { cred1 with rolemask := pcred.rolemask }
  else cred1

/-- `module_recvmsg` (module.c:383-425) applied to the message pulled
from the channel: the route-stack rewrite by type, then the credential
normalization (the route operations do not touch the credential, so the
credential read back after the rewrite is the received one). -/
def module_recvmsg (p : ModuleRecord) (msg : FluxMsg) : FluxMsg :=
  let m := recvRouteRewrite p msg
  { m with cred := credNormalize p.cred m.cred }

/-- The credential `module_create` (module.c:342-347) fixes on the
channel at creation: userid is the process uid, rolemask is
OWNER | LOCAL. -/
def module_create_cred (uid : Nat) : MsgCred :=
  { userid := uid, rolemask := FLUX_ROLE_OWNER ||| FLUX_ROLE_LOCAL }

/-! ### module_set_status (module.c:614-622) -/

/-- The two `assert`s guarding `module_set_status` (module.c:616-617):
the new status may not be INIT, and the current status may not be
EXITED.  These are the only transition checks in the function. -/
def set_status_assert_ok (cur new_status : Nat) : Bool :=
  decide (new_status ≠ FLUX_MODSTATE_INIT) && decide (cur ≠ FLUX_MODSTATE_EXITED)

/-- `module_set_status` (module.c:614-622) past its assertions: stores
the new status and reports the `(prev, current)` pair handed to the
registered status callback. -/
def module_set_status (p : ModuleRecord) (new_status : Nat) :
    ModuleRecord × (Nat × Nat) :=
  ({ p with status := new_status }, (p.status, new_status))

/-- Runs a sequence of `module_set_status` calls from a record, checking
the function's assertions before each call; `none` means some call in
the sequence aborted on an assertion. -/
def runStatusSeq (p : ModuleRecord) : List Nat → Option ModuleRecord
  | [] => some p
  | n :: rest =>
      if set_status_assert_ok p.status n then
        runStatusSeq (module_set_status p n).1 rest
      else
        none

/-! ### module_destroy (module.c:492-545) -/

/-- Observable steps of `module_destroy`, in execution order: joining the
module thread, the forced status transition (with the `(prev, current)`
pair passed to the status callback), and the release of the record's
resources (disconnect tracker, watcher, socket, dso, strings, pending
admin messages, subscriptions, the record itself). -/
inductive DestroyEvent where
  | joinThread : DestroyEvent
  | statusTransition : Nat → Nat → DestroyEvent
  | releaseResources : DestroyEvent
deriving DecidableEq, Repr

/-- Errno effects of the cleanup calls inside `module_destroy`
(pthread_join, callbacks reached from the forced transition, the various
destroy/free calls): each is an arbitrary transformation of errno. -/
structure CleanupErrno where
  joinClobber : Nat → Nat
  statusClobber : Nat → Nat
  releaseClobber : Nat → Nat

/-- `module_destroy` (module.c:492-545).  A NULL record returns at once.
Otherwise errno is saved on entry; if the thread was started it is
joined, and if the status is not yet EXITED the record is explicitly
transitioned to EXITED via `module_set_status` (which invokes the status
callback); then all resources are released and errno is restored to the
saved value.  Returns the ordered event list and the final errno. -/
def module_destroy (env : CleanupErrno) (p : Option ModuleRecord)
    (errnoIn : Nat) : List DestroyEvent × Nat :=
  match p with
  | none => ([], errnoIn)
  | some r =>
      let saved := errnoIn
      let step1 : List DestroyEvent × Nat :=
        if r.thread_started then
          let eJoin := env.joinClobber errnoIn
          if r.status ≠ FLUX_MODSTATE_EXITED then
            let t := module_set_status r FLUX_MODSTATE_EXITED
            ([DestroyEvent.joinThread,
              DestroyEvent.statusTransition t.2.1 t.2.2],
             env.statusClobber eJoin)
          else
            ([DestroyEvent.joinThread], eJoin)
        else
          ([], errnoIn)
      let _eAfterRelease := env.releaseClobber step1.2
      (step1.1 ++ [DestroyEvent.releaseResources], saved)

/-! ### rmmod queue (module.c:634-649)

`module_push_rmmod` stores a payload-stripped copy of the message with
czmq `zlist_push`; `module_pop_rmmod` retrieves one with `zlist_pop`. -/

/-- czmq `zlist_push` (libczmqcontainers, not under `src/`; czmq API:
"push an item to the start of list"): the head of the Lean list is the
start of the zlist. -/
def zlist_push {α : Type} (l : List α) (x : α) : List α :=
  x :: l

/-- czmq `zlist_pop` (libczmqcontainers, not under `src/`; czmq API:
"pop the item off the start of the list, if any"). -/
def zlist_pop {α : Type} : List α → Option α × List α
  | [] => (none, [])
  | x :: rest => (some x, rest)

/-- `module_push_rmmod` (module.c:634-644): a copy of the message
without payload is pushed onto the start of the `rmmod` zlist. -/
def module_push_rmmod (p : ModuleRecord) (msg : FluxMsg) : ModuleRecord :=
  { p with rmmod := zlist_push p.rmmod (flux_msg_copy msg false) }

/-- `module_pop_rmmod` (module.c:646-649): pops from the start of the
`rmmod` zlist; NULL when empty. -/
def module_pop_rmmod (p : ModuleRecord) : Option FluxMsg × ModuleRecord :=
  let r := zlist_pop p.rmmod
  (r.1, { p with rmmod := r.2 })

/-- Folds `module_push_rmmod` over a list of messages, oldest first. -/
def pushRmmodAll (p : ModuleRecord) : List FluxMsg → ModuleRecord
  | [] => p
  | m :: ms => pushRmmodAll (module_push_rmmod p m) ms

/-- Pops `k` messages with `module_pop_rmmod`, collecting the results in
pop order (`none` entries included). -/
def popRmmodN (p : ModuleRecord) : Nat → List (Option FluxMsg)
  | 0 => []
  | Nat.succ k =>
      let r := module_pop_rmmod p
      r.1 :: popRmmodN r.2 k

/-! ### module_name_from_path (module.c:232-249) and name selection in
module_create (module.c:301-308) -/

/-- libc `basename` on the character list of a path: the component after
the last slash.  Modelled from the spec: "derived from the path
basename"; faithful to libc for paths that do not end in a slash. -/
def basenameChars : List Char → List Char
  | [] => []
  | c :: rest =>
      if c = '/' then basenameChars rest
      else if rest.contains '/' then basenameChars rest
      else c :: rest

/-- The `strstr (name, ".so")` truncation of `module_name_from_path`
(module.c:240-241): cut the string at the first occurrence of the
substring ".so". -/
def truncAtSo : List Char → List Char
  | [] => []
  | c :: rest =>
      if c = '.' ∧ rest.take 2 = ['s', 'o'] then []
      else c :: truncAtSo rest

/-- `module_name_from_path` (module.c:232-249): basename of the path,
truncated at the first occurrence of ".so". -/
def module_name_from_path (s : String) : String :=
  String.mk (truncAtSo (basenameChars s.data))

/-- The name selection of `module_create` (module.c:301-308): an
explicit name is copied verbatim; otherwise the name is derived from the
path by `module_name_from_path`. -/
def module_create_name (name : Option String) (path : String) : String :=
  match name with
  | some n => n
  | none => module_name_from_path path

/-! ### Getters (module.c:358-381) -/

/-- `module_get_name` (module.c:363-366): `p && p->name ? p->name :
"unknown"`. -/
def module_get_name (p : Option ModuleRecord) : String :=
  match p with
  | some r => match r.name with
    | some n => n
    | none => "unknown"
  | none => "unknown"

/-- `module_get_path` (module.c:358-361): `p && p->path ? p->path :
"unknown"`. -/
def module_get_path (p : Option ModuleRecord) : String :=
  match p with
  | some r => match r.path with
    | some s => s
    | none => "unknown"
  | none => "unknown"

/-- `module_get_uuid` (module.c:368-371): `p ? p->uuid_str :
"unknown"`. -/
def module_get_uuid (p : Option ModuleRecord) : String :=
  match p with
  | some r => r.uuid_str
  | none => "unknown"

/-- `module_get_status` (module.c:378-381): `p ? p->status : 0`. -/
def module_get_status (p : Option ModuleRecord) : Nat :=
  match p with
  | some r => r.status
  | none => 0

/-! ### Concrete fixtures used to instantiate the theorems -/

/-- A freshly created record: credential as fixed by `module_create`
(uid 1000), not muted, status INIT, empty admin queues. -/
def exampleRecord : ModuleRecord :=
  { uuid_str := "5cf2d3e0-0000-0000-0000-000000000001"
    parent_uuid_str := "a96056e3-0000-0000-0000-000000000000"
    name := some "mod_echo"
    path := some "./mod_echo.so"
    cred := module_create_cred 1000
    muted := false
    status := FLUX_MODSTATE_INIT
    errnum := 0
    rmmod := []
    insmod := none
    thread_started := false }

/-- `exampleRecord` after `module_mute` (module.c:570-573). -/
def exampleMutedRecord : ModuleRecord :=
  { exampleRecord with muted := true }

/-- `exampleRecord` with a started thread, status RUNNING. -/
def exampleRunningRecord : ModuleRecord :=
  { exampleRecord with status := FLUX_MODSTATE_RUNNING, thread_started := true }

/-- A REQUEST message with one route entry. -/
def exampleRequest : FluxMsg :=
  { typ := FLUX_MSGTYPE_REQUEST
    topic := "kvs.get"
    routes := ["client-7"]
    cred := { userid := 1000, rolemask := FLUX_ROLE_OWNER }
    payload := [3, 1, 4] }

/-- A RESPONSE message with two route entries. -/
def exampleResponse : FluxMsg :=
  { typ := FLUX_MSGTYPE_RESPONSE
    topic := "kvs.get"
    routes := ["client-7", "next-hop"]
    cred := { userid := 1000, rolemask := FLUX_ROLE_OWNER }
    payload := [2, 7] }

/-- A RESPONSE to the broker.module-status RPC (the one message a muted
record may still send). -/
def exampleStatusResponse : FluxMsg :=
  { typ := FLUX_MSGTYPE_RESPONSE
    topic := "broker.module-status"
    routes := ["mod-uuid"]
    cred := { userid := 1000, rolemask := FLUX_ROLE_OWNER }
    payload := [] }

/-- A message whose credential carries a nonzero rolemask without the
OWNER bit (an OWNER module asserting another user's credential). -/
def exampleNonOwnerMsg : FluxMsg :=
  { typ := FLUX_MSGTYPE_REQUEST
    topic := "job-ingest.submit"
    routes := []
    cred := { userid := 5000, rolemask := FLUX_ROLE_USER }
    payload := [] }

/-- First remove-module request pushed in the C7 scenarios. -/
def exampleRmmod1 : FluxMsg :=
  { typ := FLUX_MSGTYPE_REQUEST
    topic := "module.remove.first"
    routes := []
    cred := { userid := 1000, rolemask := FLUX_ROLE_OWNER }
    payload := [] }

/-- Second remove-module request pushed in the C7 scenarios. -/
def exampleRmmod2 : FluxMsg :=
  { typ := FLUX_MSGTYPE_REQUEST
    topic := "module.remove.second"
    routes := []
    cred := { userid := 1000, rolemask := FLUX_ROLE_OWNER }
    payload := [] }

/-- A message carrying no credential information: unknown userid and
empty rolemask (both get normalized on receive). -/
def exampleEmptyRoleMsg : FluxMsg :=
  { typ := FLUX_MSGTYPE_EVENT
    topic := "heartbeat.pulse"
    routes := []
    cred := { userid := FLUX_USERID_UNKNOWN, rolemask := FLUX_ROLE_NONE }
    payload := [] }

/-- Cleanup effects that leave errno alone (no clobbering). -/
def idCleanup : CleanupErrno :=
  { joinClobber := fun e => e
    statusClobber := fun e => e
    releaseClobber := fun e => e }

/-- Cleanup effects that set errno to fixed unrelated values, to witness
that `module_destroy` restores errno regardless. -/
def clobberCleanup : CleanupErrno :=
  { joinClobber := fun _ => ENOMEM
    statusClobber := fun _ => EINVAL
    releaseClobber := fun _ => ENOSYS }

/-! ## Helper lemmas -/

/-- The receive-side route rewrite leaves the credential untouched. -/
theorem recvRouteRewrite_cred (p : ModuleRecord) (m : FluxMsg) :
    (recvRouteRewrite p m).cred = m.cred := by
  unfold recvRouteRewrite
  split
  · rfl
  · split <;> rfl

/-- The receive-side route rewrite preserves type, topic and payload. -/
theorem recvRouteRewrite_frame (p : ModuleRecord) (m : FluxMsg) :
    (recvRouteRewrite p m).typ = m.typ
    ∧ (recvRouteRewrite p m).topic = m.topic
    ∧ (recvRouteRewrite p m).payload = m.payload := by
  unfold recvRouteRewrite
  split
  · exact ⟨rfl, rfl, rfl⟩
  · split <;> exact ⟨rfl, rfl, rfl⟩

/-- Componentwise description of the credential normalization. -/
theorem credNormalize_eq (pcred mcred : MsgCred) :
    credNormalize pcred mcred
      = { userid := if mcred.userid = FLUX_USERID_UNKNOWN then pcred.userid
                    else mcred.userid
          rolemask := if mcred.rolemask = FLUX_ROLE_NONE then pcred.rolemask
                      else mcred.rolemask } := by
  unfold credNormalize
  by_cases h1 : mcred.userid = FLUX_USERID_UNKNOWN <;>
    by_cases h2 : mcred.rolemask = FLUX_ROLE_NONE <;>
      simp [h1, h2]

/-- The routes of a received message are those of the route rewrite: the
credential normalization does not touch the route stack. -/
theorem module_recvmsg_routes (p : ModuleRecord) (m : FluxMsg) :
    (module_recvmsg p m).routes = (recvRouteRewrite p m).routes := rfl

/-- The credential of a received message is the normalization of the
received credential against the channel credential. -/
theorem module_recvmsg_cred (p : ModuleRecord) (m : FluxMsg) :
    (module_recvmsg p m).cred = credNormalize p.cred m.cred := by
  show credNormalize p.cred (recvRouteRewrite p m).cred = credNormalize p.cred m.cred
  rw [recvRouteRewrite_cred]

/-! ## Claim theorems -/

/-- C1: On an unmuted record, `module_sendmsg` transmits a REQUEST as a
duplicate with `parent_uuid_str` pushed as the new top (last) route
entry — so the transmitted stack's top entry equals `parent_uuid_str`;
a RESPONSE as a duplicate with the last route entry popped — so the
transmitted stack is one entry shorter than the original (stated for a
nonempty pre-rewrite stack); and every other type verbatim.  The frame
is computed from the unmodified argument message throughout. -/
theorem module_sendmsg_route_rewrite (p : ModuleRecord) (m : FluxMsg)
    (hmut : p.muted = false) :
    (m.typ = FLUX_MSGTYPE_REQUEST →
        module_sendmsg p (some m)
          = SendResult.sent (flux_msg_route_push m p.parent_uuid_str)
        ∧ (flux_msg_route_push m p.parent_uuid_str).routes.getLast?
            = some p.parent_uuid_str)
    ∧ (m.typ = FLUX_MSGTYPE_RESPONSE →
        module_sendmsg p (some m)
          = SendResult.sent (flux_msg_route_delete_last m)
        ∧ (m.routes ≠ [] →
            (flux_msg_route_delete_last m).routes.length + 1 = m.routes.length))
    ∧ (m.typ ≠ FLUX_MSGTYPE_REQUEST → m.typ ≠ FLUX_MSGTYPE_RESPONSE →
        module_sendmsg p (some m) = SendResult.sent m) := by
  refine ⟨?_, ?_, ?_⟩
  · intro h
    refine ⟨?_, ?_⟩
    · simp [module_sendmsg, hmut, h, flux_msg_copy]
    · simp [flux_msg_route_push]
  · intro h
    refine ⟨?_, ?_⟩
    · simp [module_sendmsg, hmut, h, flux_msg_copy,
            FLUX_MSGTYPE_REQUEST, FLUX_MSGTYPE_RESPONSE]
    · intro hne
      have hpos : 0 < m.routes.length := List.length_pos.mpr hne
      simp [flux_msg_route_delete_last, List.length_dropLast]
      omega
  · intro h1 h2
    simp [module_sendmsg, hmut, h1, h2]

/-- Witness for C1: the concrete unmuted record and REQUEST. -/
theorem module_sendmsg_route_rewrite_witness :
    module_sendmsg exampleRecord (some exampleRequest)
      = SendResult.sent
          (flux_msg_route_push exampleRequest exampleRecord.parent_uuid_str)
    ∧ (flux_msg_route_push exampleRequest exampleRecord.parent_uuid_str).routes.getLast?
        = some exampleRecord.parent_uuid_str :=
  (module_sendmsg_route_rewrite exampleRecord exampleRequest rfl).1 rfl

/-- C2: `module_recvmsg` pops the last route entry of a RESPONSE, pushes
the record's `uuid_str` for a REQUEST or EVENT, leaves the stack of
other types unchanged; then an unknown userid is replaced by the channel
credential's userid and an empty rolemask by the channel credential's
rolemask, any other carried userid/rolemask being preserved. -/
theorem module_recvmsg_rewrite (p : ModuleRecord) (m : FluxMsg) :
    (m.typ = FLUX_MSGTYPE_RESPONSE →
        (module_recvmsg p m).routes = m.routes.dropLast)
    ∧ (m.typ = FLUX_MSGTYPE_REQUEST ∨ m.typ = FLUX_MSGTYPE_EVENT →
        (module_recvmsg p m).routes = m.routes ++ [p.uuid_str])
    ∧ (m.typ ≠ FLUX_MSGTYPE_RESPONSE → m.typ ≠ FLUX_MSGTYPE_REQUEST →
       m.typ ≠ FLUX_MSGTYPE_EVENT →
        (module_recvmsg p m).routes = m.routes)
    ∧ (module_recvmsg p m).cred.userid
        = (if m.cred.userid = FLUX_USERID_UNKNOWN then p.cred.userid
           else m.cred.userid)
    ∧ (module_recvmsg p m).cred.rolemask
        = (if m.cred.rolemask = FLUX_ROLE_NONE then p.cred.rolemask
           else m.cred.rolemask) := by
  refine ⟨?_, ?_, ?_, ?_, ?_⟩
  · intro h
    rw [module_recvmsg_routes]
    simp [recvRouteRewrite, h, flux_msg_route_delete_last]
  · intro h
    rw [module_recvmsg_routes]
    rcases h with h | h <;>
      simp [recvRouteRewrite, h, flux_msg_route_push, FLUX_MSGTYPE_REQUEST,
            FLUX_MSGTYPE_RESPONSE, FLUX_MSGTYPE_EVENT]
  · intro h1 h2 h3
    rw [module_recvmsg_routes]
    simp [recvRouteRewrite, h1, h2, h3]
  · rw [module_recvmsg_cred, credNormalize_eq]
  · rw [module_recvmsg_cred, credNormalize_eq]

/-- Witness for C2: a concrete RESPONSE loses its last route entry. -/
theorem module_recvmsg_rewrite_witness :
    (module_recvmsg exampleRecord exampleResponse).routes
      = exampleResponse.routes.dropLast :=
  (module_recvmsg_rewrite exampleRecord exampleResponse).1 rfl

/-- C3: On a muted record, `module_sendmsg` fails with ENOSYS and
transmits nothing for every message that is not a RESPONSE with topic
"broker.module-status"; a RESPONSE with that topic is still transmitted
(as the duplicate with the last route entry popped). -/
theorem module_sendmsg_muted_gate (p : ModuleRecord) (m : FluxMsg)
    (hmut : p.muted = true) :
    ((m.typ ≠ FLUX_MSGTYPE_RESPONSE ∨ m.topic ≠ "broker.module-status") →
        module_sendmsg p (some m) = SendResult.failed ENOSYS)
    ∧ (m.typ = FLUX_MSGTYPE_RESPONSE → m.topic = "broker.module-status" →
        module_sendmsg p (some m)
          = SendResult.sent (flux_msg_route_delete_last m)) := by
  constructor
  · intro h
    rcases h with h | h <;> simp [module_sendmsg, hmut, h]
  · intro h1 h2
    simp [module_sendmsg, hmut, h1, h2, flux_msg_copy,
          FLUX_MSGTYPE_REQUEST, FLUX_MSGTYPE_RESPONSE]

/-- Witness for C3: concretely, the muted record rejects a REQUEST with
ENOSYS and still sends a RESPONSE to broker.module-status. -/
theorem module_sendmsg_muted_gate_witness :
    module_sendmsg exampleMutedRecord (some exampleRequest)
      = SendResult.failed ENOSYS
    ∧ module_sendmsg exampleMutedRecord (some exampleStatusResponse)
        = SendResult.sent (flux_msg_route_delete_last exampleStatusResponse) :=
  ⟨(module_sendmsg_muted_gate exampleMutedRecord exampleRequest rfl).1
      (Or.inl (by decide)),
   (module_sendmsg_muted_gate exampleMutedRecord exampleStatusResponse rfl).2
      rfl rfl⟩

/-- C4 counterexample: the assertions of `module_set_status` accept the
sequence INIT → FINALIZING → RUNNING, a backward transition; so the
status does not only move forward under `module_set_status`. -/
theorem module_set_status_backward_accepted :
    exampleRecord.status = FLUX_MODSTATE_INIT
    ∧ (runStatusSeq exampleRecord
        [FLUX_MODSTATE_FINALIZING, FLUX_MODSTATE_RUNNING]).map ModuleRecord.status
        = some FLUX_MODSTATE_RUNNING
    ∧ FLUX_MODSTATE_RUNNING < FLUX_MODSTATE_FINALIZING := by
  refine ⟨rfl, rfl, by decide⟩

/-- C4 (amended): `module_set_status` only asserts that the new status
is not INIT and that the current status is not EXITED; along any
assertion-passing sequence of calls, INIT is never re-entered and no
transition leaves EXITED, but other backward transitions (for example
FINALIZING → RUNNING) are not rejected. -/
theorem module_set_status_init_exited_terminal (p : ModuleRecord)
    (seq : List Nat) (h : runStatusSeq p seq ≠ none) :
    FLUX_MODSTATE_INIT ∉ seq
    ∧ (p.status = FLUX_MODSTATE_EXITED → seq = [])
    ∧ ∀ a b, seq = a ++ FLUX_MODSTATE_EXITED :: b → b = [] := by
  induction seq generalizing p with
  | nil =>
      refine ⟨by simp, fun _ => rfl, ?_⟩
      intro a b hab
      exact absurd hab (by simp)
  | cons n rest ih =>
      by_cases hc : set_status_assert_ok p.status n = true
      · have hrec : runStatusSeq (module_set_status p n).1 rest ≠ none := by
          simpa [runStatusSeq, hc] using h
        obtain ⟨ih1, ih2, ih3⟩ := ih (module_set_status p n).1 hrec
        have hn : n ≠ FLUX_MODSTATE_INIT ∧ p.status ≠ FLUX_MODSTATE_EXITED := by
          simpa [set_status_assert_ok] using hc
        refine ⟨?_, ?_, ?_⟩
        · intro hmem
          rcases List.mem_cons.mp hmem with he | hmem2
          · exact hn.1 he.symm
          · exact ih1 hmem2
        · intro hex
          exact absurd hex hn.2
        · intro a b hab
          rcases a with _ | ⟨a0, a1⟩
          · have hn3 : n = FLUX_MODSTATE_EXITED := (List.cons.inj hab).1
            have hrest : rest = b := (List.cons.inj hab).2
            have : (module_set_status p n).1.status = FLUX_MODSTATE_EXITED := hn3
            have hbnil := ih2 this
            rw [← hrest]
            exact hbnil
          · have hrest : rest = a1 ++ FLUX_MODSTATE_EXITED :: b :=
              (List.cons.inj hab).2
            exact ih3 a1 b hrest
      · exfalso
        apply h
        simp [runStatusSeq, hc]

/-- Witness for C4 (amended): concretely, after a valid INIT → RUNNING
call sequence, INIT is not among the targets. -/
theorem module_set_status_init_exited_terminal_witness :
    FLUX_MODSTATE_INIT ∉ [FLUX_MODSTATE_RUNNING] :=
  (module_set_status_init_exited_terminal exampleRecord [FLUX_MODSTATE_RUNNING]
      (by decide)).1

/-- C5 counterexample: on a record whose channel credential is the one
fixed by `module_create` (uid 1000, rolemask OWNER|LOCAL), a received
message carrying the nonzero rolemask USER keeps it, so the returned
message's credential does not have the OWNER bit set. -/
theorem module_recvmsg_owner_bit_counterexample :
    exampleRecord.cred = module_create_cred 1000
    ∧ (module_recvmsg exampleRecord exampleNonOwnerMsg).cred.rolemask
        &&& FLUX_ROLE_OWNER = 0 := by
  refine ⟨rfl, by decide⟩

/-- C5 (amended): with the channel credential fixed by `module_create`,
the assertion executed on each receive (OWNER bit in the channel
credential's rolemask) holds; a message received with an empty rolemask
is given the channel rolemask, which has the OWNER bit; a message
received with a nonzero rolemask keeps it unchanged (and it need not
contain the OWNER bit). -/
theorem module_recvmsg_owner_bit_amended (p : ModuleRecord) (uid : Nat)
    (m : FluxMsg) (hc : p.cred = module_create_cred uid) :
    module_recvmsg_assertion p
    ∧ (m.cred.rolemask = FLUX_ROLE_NONE →
        (module_recvmsg p m).cred.rolemask &&& FLUX_ROLE_OWNER ≠ 0)
    ∧ (m.cred.rolemask ≠ FLUX_ROLE_NONE →
        (module_recvmsg p m).cred.rolemask = m.cred.rolemask) := by
  have hrole : (module_recvmsg p m).cred.rolemask
      = if m.cred.rolemask = FLUX_ROLE_NONE then p.cred.rolemask
        else m.cred.rolemask := by
    rw [module_recvmsg_cred, credNormalize_eq]
  refine ⟨?_, ?_, ?_⟩
  · unfold module_recvmsg_assertion
    rw [hc]
    show ((FLUX_ROLE_OWNER ||| FLUX_ROLE_LOCAL) &&& FLUX_ROLE_OWNER) ≠ 0
    decide
  · intro h
    rw [hrole, if_pos h, hc]
    show ((FLUX_ROLE_OWNER ||| FLUX_ROLE_LOCAL) &&& FLUX_ROLE_OWNER) ≠ 0
    decide
  · intro h
    rw [hrole, if_neg h]

/-- Witness for C5 (amended): the concrete record from `module_create`
and a message with empty rolemask. -/
theorem module_recvmsg_owner_bit_amended_witness :
    (module_recvmsg exampleRecord exampleEmptyRoleMsg).cred.rolemask
        &&& FLUX_ROLE_OWNER ≠ 0 :=
  (module_recvmsg_owner_bit_amended exampleRecord 1000 exampleEmptyRoleMsg
      rfl).2.1 rfl

/-- C6: `module_destroy` on a record whose thread was started joins the
thread; if the status is not yet EXITED it then transitions the status
to EXITED (handing (prev, EXITED) to the status callback) before any
resource is released; if the status is already EXITED no transition
occurs. -/
theorem module_destroy_forces_exited (env : CleanupErrno) (r : ModuleRecord)
    (e : Nat) (ht : r.thread_started = true) :
    (r.status ≠ FLUX_MODSTATE_EXITED →
        (module_destroy env (some r) e).1
          = [DestroyEvent.joinThread,
             DestroyEvent.statusTransition r.status FLUX_MODSTATE_EXITED,
             DestroyEvent.releaseResources])
    ∧ (r.status = FLUX_MODSTATE_EXITED →
        (module_destroy env (some r) e).1
          = [DestroyEvent.joinThread, DestroyEvent.releaseResources]) := by
  constructor
  · intro h
    simp [module_destroy, module_set_status, ht, h]
  · intro h
    simp [module_destroy, ht, h]

/-- Witness for C6: destroying the concrete running record joins, then
transitions RUNNING → EXITED, then releases resources. -/
theorem module_destroy_forces_exited_witness :
    (module_destroy idCleanup (some exampleRunningRecord) 7).1
      = [DestroyEvent.joinThread,
         DestroyEvent.statusTransition exampleRunningRecord.status
           FLUX_MODSTATE_EXITED,
         DestroyEvent.releaseResources] :=
  (module_destroy_forces_exited idCleanup exampleRunningRecord 7 rfl).1
    (by decide)

/-- C7 counterexample: after pushing two distinct remove-module requests
the first pop returns the second one — the queue is not FIFO. -/
theorem module_rmmod_fifo_counterexample :
    (module_pop_rmmod
        (module_push_rmmod (module_push_rmmod exampleRecord exampleRmmod1)
          exampleRmmod2)).1
      = some exampleRmmod2
    ∧ exampleRmmod2 ≠ exampleRmmod1 := by
  refine ⟨rfl, by decide⟩

/-- Folding pushes prepends the payload-stripped copies, newest first. -/
theorem pushRmmodAll_rmmod (ms : List FluxMsg) (p : ModuleRecord) :
    (pushRmmodAll p ms).rmmod
      = (ms.map (fun m => flux_msg_copy m false)).reverse ++ p.rmmod := by
  induction ms generalizing p with
  | nil => simp [pushRmmodAll]
  | cons m ms ih =>
      simp [pushRmmodAll, ih, module_push_rmmod, zlist_push]

/-- Popping as many times as the zlist is long returns its elements in
list order. -/
theorem popRmmodN_all (l : List FluxMsg) (p : ModuleRecord)
    (hp : p.rmmod = l) :
    popRmmodN p l.length = l.map some := by
  induction l generalizing p with
  | nil => simp [popRmmodN]
  | cons x xs ih =>
      have hpop : module_pop_rmmod p = (some x, { p with rmmod := xs }) := by
        simp [module_pop_rmmod, zlist_pop, hp]
      simp [popRmmodN, hpop, ih]

/-- C7 (amended): the pending remove-module queue is a LIFO stack:
pushing m1, ..., mk (with no interleaved pops) and then popping returns
the payload-stripped copies of the messages in reverse order mk, ...,
m1, and a pop on an empty queue returns nothing. -/
theorem module_rmmod_lifo (p : ModuleRecord) (ms : List FluxMsg)
    (hp : p.rmmod = []) :
    popRmmodN (pushRmmodAll p ms) ms.length
      = (ms.map (fun m => some (flux_msg_copy m false))).reverse
    ∧ (module_pop_rmmod p).1 = none := by
  constructor
  · have hall : (pushRmmodAll p ms).rmmod
        = (ms.map (fun m => flux_msg_copy m false)).reverse := by
      rw [pushRmmodAll_rmmod, hp, List.append_nil]
    have hlen : ms.length
        = ((ms.map (fun m => flux_msg_copy m false)).reverse).length := by
      simp
    rw [hlen, popRmmodN_all _ _ hall]
    simp
  · simp [module_pop_rmmod, zlist_pop, hp]

/-- Witness for C7 (amended): two pushes on the concrete empty record,
popped back newest first. -/
theorem module_rmmod_lifo_witness :
    popRmmodN (pushRmmodAll exampleRecord [exampleRmmod1, exampleRmmod2])
        ([exampleRmmod1, exampleRmmod2] : List FluxMsg).length
      = ([exampleRmmod1, exampleRmmod2].map
          (fun m => some (flux_msg_copy m false))).reverse :=
  (module_rmmod_lifo exampleRecord [exampleRmmod1, exampleRmmod2] rfl).1

/-- Appending ".so"-plus-remainder to a string with no ".so" occurrence
is cut back to the string by the strstr truncation. -/
theorem truncAtSo_append (rest : List Char) :
    ∀ base : List Char, truncAtSo base = base →
      truncAtSo (base ++ '.' :: 's' :: 'o' :: rest) = base := by
  intro base
  induction base with
  | nil =>
      intro _
      simp [truncAtSo]
  | cons c cs ih =>
      intro hb
      have hcond : ¬(c = '.' ∧ cs.take 2 = ['s', 'o']) := by
        intro hcond
        rw [truncAtSo, if_pos hcond] at hb
        exact (List.cons_ne_nil c cs) hb.symm
      have hcs : truncAtSo cs = cs := by
        rw [truncAtSo, if_neg hcond] at hb
        injection hb
      have hcond2 :
          ¬(c = '.' ∧ (cs ++ '.' :: 's' :: 'o' :: rest).take 2 = ['s', 'o']) := by
        rcases cs with _ | ⟨c2, _ | ⟨c3, cs2⟩⟩
        · intro hx
          simp at hx
        · intro hx
          simp at hx
        · intro hx
          apply hcond
          refine ⟨hx.1, ?_⟩
          simpa using hx.2
      rw [List.cons_append, truncAtSo, if_neg hcond2, ih hcs]

/-- C8: when `module_create` gets no explicit name, the record's name is
the path's basename truncated at the first occurrence of ".so"; for a
basename of the form `base ++ ".so" ++ rest` with no ".so" inside
`base`, the name is exactly `base` (the shared-object suffix is
stripped); in particular path "./mod_echo.so" yields "mod_echo". -/
theorem module_create_name_strips_so (path : String) (base rest : List Char)
    (hb : basenameChars path.data = base ++ '.' :: 's' :: 'o' :: rest)
    (hbase : truncAtSo base = base) :
    module_create_name none path = String.mk base
    ∧ module_name_from_path path = String.mk base := by
  have h : module_name_from_path path = String.mk base := by
    unfold module_name_from_path
    rw [hb, truncAtSo_append rest base hbase]
  exact ⟨h, h⟩

/-- Witness for C8: `create(name=null, path="./mod_echo.so")` derives
the name "mod_echo". -/
theorem module_create_name_strips_so_witness :
    module_create_name none "./mod_echo.so" = "mod_echo" := by
  have h := (module_create_name_strips_so "./mod_echo.so"
      ['m', 'o', 'd', '_', 'e', 'c', 'h', 'o'] [] (by decide) (by decide)).1
  rw [h]

/-- C9 counterexample: `module_sendmsg` with a NULL message returns
success (0) and transmits nothing rather than failing with EINVAL, and
the getters applied to a NULL record return the placeholder "unknown"
(0 for the status) rather than failing with EINVAL. -/
theorem module_api_null_counterexample :
    module_sendmsg exampleRecord none = SendResult.nullNoop
    ∧ module_sendmsg exampleRecord none ≠ SendResult.failed EINVAL
    ∧ module_get_name none = "unknown"
    ∧ module_get_path none = "unknown"
    ∧ module_get_uuid none = "unknown"
    ∧ module_get_status none = 0 := by
  refine ⟨rfl, by decide, rfl, rfl, rfl, rfl⟩

/-- C9 (amended): the host API tolerates NULL-equivalent inputs without
crashing, but does not raise invalid-argument: send with a NULL message
is a silent success transmitting nothing, and the getters with a NULL
record return the placeholder "unknown" (0 for the status). -/
theorem module_api_null_tolerated (p : ModuleRecord) :
    module_sendmsg p none = SendResult.nullNoop
    ∧ module_get_name none = "unknown"
    ∧ module_get_path none = "unknown"
    ∧ module_get_uuid none = "unknown"
    ∧ module_get_status none = 0 :=
  ⟨rfl, rfl, rfl, rfl, rfl⟩

/-- C10: `module_destroy` leaves the caller's errno unchanged: for the
NULL record it returns untouched, and otherwise errno is saved on entry
and restored after all cleanup steps, whatever errno values those steps
produce. -/
theorem module_destroy_preserves_errno (env : CleanupErrno)
    (p : Option ModuleRecord) (e : Nat) :
    (module_destroy env p e).2 = e := by
  cases p <;> rfl

end FluxModule
